import Mathlib

/-!
Shallow embedding of the map-splitting planner, the PDF assembler tick
drawing and the embedded-image extractor of python-pathfinder-tools
(the pathfinder.mapmaker package). Python floats are modelled as
rationals, PIL images as records carrying mode, size and bands, and the
PDF object graph as a store of records addressed by object number.
-/

namespace Mapmaker

/-- Paper dimensions in mm (dataclass PaperSize and enum Paper). -/
structure PaperSize where
  width : ℚ
  height : ℚ
  deriving DecidableEq, Repr

/-- Paper.A4: 210 x 297 mm. -/
def A4 : PaperSize := { width := 210, height := 297 }

/-- Page orientation: the codes L and P returned by split_image.get_page_size. -/
inductive Orientation where
  | L : Orientation
  | P : Orientation
  deriving DecidableEq, Repr

/-- split_image.get_page_size.pages: one page when the size rounds up to one
printable size, otherwise the ceiling of size over printable size plus
overlap. -/
def pages (size printable_size overlap : ℚ) : ℤ :=
  if ⌈size / printable_size⌉ = 1 then 1
  else ⌈size / (printable_size + overlap)⌉

/-- split_image.get_page_size.zero_if_one. -/
def zero_if_one (test : ℤ) (value : ℚ) : ℚ :=
  if test = 1 then 0 else value

/-- What get_page_size returns: orientation, page counts along each axis and
the per-page stride in mm (printable size less the overlap unless the axis
needs a single page). -/
structure PageLayout where
  orientation : Orientation
  pages_horizontal : ℤ
  pages_vertical : ℤ
  page_width : ℚ
  page_height : ℚ
  deriving DecidableEq, Repr

/-- split_image.get_page_size: printable sizes from paper less borders, the
four candidate page counts, landscape exactly when the portrait total is
strictly greater, and the returned strides with zero_if_one applied. -/
def get_page_size (width_mm height_mm : ℚ) (paper : PaperSize)
    (border_north border_east border_south border_west : ℚ)
    (overlap_east overlap_south : ℚ) : PageLayout :=
  let printable_width := paper.width - (border_east + border_west)
  let printable_height := paper.height - (border_north + border_south)
  let pages_horizontal_p := pages width_mm printable_width overlap_east
  let pages_vertical_p := pages height_mm printable_height overlap_south
  let pages_horizontal_l := pages width_mm printable_height overlap_south
  let pages_vertical_l := pages height_mm printable_width overlap_east
  if pages_horizontal_p * pages_vertical_p > pages_horizontal_l * pages_vertical_l then
    { orientation := Orientation.L
      pages_horizontal := pages_horizontal_l
      pages_vertical := pages_vertical_l
      page_width := printable_height - zero_if_one pages_horizontal_l overlap_south
      page_height := printable_width - zero_if_one pages_vertical_l overlap_east }
  else
    { orientation := Orientation.P
      pages_horizontal := pages_horizontal_p
      pages_vertical := pages_vertical_p
      page_width := printable_width - zero_if_one pages_horizontal_p overlap_east
      page_height := printable_height - zero_if_one pages_vertical_p overlap_south }

/-- The border list split_image hands to make_pdf (north, east, south, west,
after the overlap amounts were folded in). -/
structure Borders where
  north : ℚ
  east : ℚ
  south : ℚ
  west : ℚ
  deriving DecidableEq, Repr

/-- Everything make_pdf reads from the dict split_image returns, plus the
pixel quantities crop_for closes over. -/
structure SplitPlan where
  pixels_per_mm : ℚ
  orientation : Orientation
  pages_horizontal : ℤ
  pages_vertical : ℤ
  pixel_width_page : ℚ
  pixel_height_page : ℚ
  overlap_east_pixels : ℚ
  overlap_south_pixels : ℚ
  width_pixels : ℚ
  height_pixels : ℚ
  border : Borders
  paper : PaperSize
  deriving DecidableEq, Repr

/-- split_image: scale, page layout, the pixel strides, the orientation
dependent pixel overlaps and the border list. Image enhancement does not
change sizes and is omitted. -/
def split_image (width_pixels height_pixels squares_wide squares_high : ℚ)
    (border_north border_east border_west border_south : ℚ)
    (overlap_east overlap_south : ℚ) (paper : PaperSize) : SplitPlan :=
  let ppm := min (width_pixels / (squares_wide * 25.4)) (height_pixels / (squares_high * 25.4))
  let width_mm := width_pixels / ppm
  let height_mm := height_pixels / ppm
  let layout := get_page_size width_mm height_mm paper
    border_north border_east border_south border_west overlap_east overlap_south
  { pixels_per_mm := ppm
    orientation := layout.orientation
    pages_horizontal := layout.pages_horizontal
    pages_vertical := layout.pages_vertical
    pixel_width_page := layout.page_width * ppm
    pixel_height_page := layout.page_height * ppm
    overlap_east_pixels :=
      if layout.orientation = Orientation.P then ppm * overlap_east else ppm * overlap_south
    overlap_south_pixels :=
      if layout.orientation = Orientation.P then ppm * overlap_south else ppm * overlap_east
    width_pixels := width_pixels
    height_pixels := height_pixels
    border :=
      if layout.orientation = Orientation.P then
        { north := border_north, east := border_east + overlap_east
          south := border_south + overlap_south, west := border_west }
      else
        { north := border_east, east := border_south + overlap_east
          south := border_west + overlap_south, west := border_north }
    paper := paper }

/-- A pixel-space crop rectangle, the box handed to PIL Image.crop
(left, upper, right, lower). -/
structure CropBox where
  left : ℚ
  upper : ℚ
  right : ℚ
  lower : ℚ
  deriving DecidableEq, Repr

/-- split_image.crop_for: origin at the page strides, far corner one stride
further plus the pixel overlap, clamped to the image bounds. -/
def crop_for (plan : SplitPlan) (page_x page_y : ℕ) : CropBox :=
  { left := page_x * plan.pixel_width_page
    upper := page_y * plan.pixel_height_page
    right := min plan.width_pixels ((page_x + 1) * plan.pixel_width_page + plan.overlap_east_pixels)
    lower := min plan.height_pixels ((page_y + 1) * plan.pixel_height_page + plan.overlap_south_pixels) }

/-- Membership of a point in a half-open crop rectangle. -/
def in_box (box : CropBox) (px py : ℚ) : Prop :=
  box.left ≤ px ∧ px < box.right ∧ box.upper ≤ py ∧ py < box.lower

instance (box : CropBox) (px py : ℚ) : Decidable (in_box box px py) := by
  unfold in_box; infer_instance

/-- A point is covered when some tile of the plan (page_x below
pages_horizontal, page_y below pages_vertical, as ranged over by the dict
comprehension of split_image) contains it. -/
def covered (plan : SplitPlan) (px py : ℚ) : Prop :=
  ∃ page_x ∈ Finset.range plan.pages_horizontal.toNat,
    ∃ page_y ∈ Finset.range plan.pages_vertical.toNat,
      in_box (crop_for plan page_x page_y) px py

instance (plan : SplitPlan) (px py : ℚ) : Decidable (covered plan px py) := by
  unfold covered; infer_instance

/-- One line segment drawn by make_pdf.tick, in page coordinates (mm);
dashed when drawn with pdf.dashed_line. -/
structure Segment where
  x1 : ℚ
  y1 : ℚ
  x2 : ℚ
  y2 : ℚ
  dashed : Bool
  deriving DecidableEq, Repr

/-- make_pdf.tick with its default size 5 and gap 1: up to four short
segments perpendicular to the chosen edges, shortened when they would
leave the page. Segments are listed in the order the code draws them
(west, east, north, south). -/
def tick (page_width page_height x y : ℚ) (n e s w dash : Bool) : List Segment :=
  let size : ℚ := 5
  let gap : ℚ := 1
  (if w then
    [if x ≤ size then { x1 := x - gap, y1 := y, x2 := 0, y2 := y, dashed := dash }
     else { x1 := x - gap, y1 := y, x2 := x - size, y2 := y, dashed := dash }]
   else []) ++
  (if e then
    [if page_width - x ≤ size then { x1 := x + gap, y1 := y, x2 := page_width, y2 := y, dashed := dash }
     else { x1 := x + gap, y1 := y, x2 := x + size, y2 := y, dashed := dash }]
   else []) ++
  (if n then
    [if y ≤ size then { x1 := x, y1 := y - gap, x2 := x, y2 := 0, dashed := dash }
     else { x1 := x, y1 := y - gap, x2 := x, y2 := y - size, dashed := dash }]
   else []) ++
  (if s then
    [if page_height - y ≤ size then { x1 := x, y1 := y + gap, x2 := x, y2 := page_height, dashed := dash }
     else { x1 := x, y1 := y + gap, x2 := x, y2 := y + size, dashed := dash }]
   else [])

/-- The tick segments make_pdf draws on the page holding tile
(page_x, page_y): four solid corner tick calls always, then dashed east
edge ticks unless the tile is in the last column and dashed south edge
ticks unless it is in the last row. -/
def page_ticks (plan : SplitPlan) (page_x page_y : ℕ) : List Segment :=
  let page_width := if plan.orientation = Orientation.P then plan.paper.width else plan.paper.height
  let page_height := if plan.orientation = Orientation.P then plan.paper.height else plan.paper.width
  let box := crop_for plan page_x page_y
  let im_width_mm := (box.right - box.left) / plan.pixels_per_mm
  let im_height_mm := (box.lower - box.upper) / plan.pixels_per_mm
  let bn := plan.border.north
  let be := plan.border.east
  let bs := plan.border.south
  let bw := plan.border.west
  tick page_width page_height bw bn true false false true false ++
  tick page_width page_height bw (bn + im_height_mm) false false true true false ++
  tick page_width page_height (bw + im_width_mm) (bn + im_height_mm) false true true false false ++
  tick page_width page_height (bw + im_width_mm) bn true true false false false ++
  (if (page_x : ℤ) = plan.pages_horizontal - 1 then []
   else
    tick page_width page_height (page_width - be) (im_height_mm + bn) false false true false true ++
    tick page_width page_height (page_width - be) bn true false false false true) ++
  (if (page_y : ℤ) = plan.pages_vertical - 1 then []
   else
    tick page_width page_height bw (page_height - bs) false false false true true ++
    tick page_width page_height (bw + im_width_mm) (page_height - bs) false true false false true)

/-- What process_image_with_border returns (sizes and margins in mm; the
enhanced image itself carries no size information beyond these). -/
structure SinglePageSpec where
  image_width : ℚ
  image_height : ℚ
  margin_left : ℚ
  margin_top : ℚ
  page_width : ℚ
  page_height : ℚ
  deriving DecidableEq, Repr

/-- process_image_with_border: the same scale computation as split_image,
then one page sized to the image plus its borders. -/
def process_image_with_border (width_pixels height_pixels squares_wide squares_high : ℚ)
    (border_north border_east border_west border_south : ℚ) : SinglePageSpec :=
  let ppm := min (width_pixels / (squares_wide * 25.4)) (height_pixels / (squares_high * 25.4))
  let image_width_mm := width_pixels / ppm
  let image_height_mm := height_pixels / ppm
  { image_width := image_width_mm
    image_height := image_height_mm
    margin_left := border_west
    margin_top := border_north
    page_width := image_width_mm + border_west + border_east
    page_height := image_height_mm + border_north + border_south }

/-- A decoded PIL image: channel mode, pixel dimensions, the flattened byte
band it was built from, and the alpha band when one was applied. -/
structure RasterImage where
  mode : String
  width : ℕ
  height : ℕ
  pix : List ℕ
  alpha : Option (List ℕ)
  deriving DecidableEq, Repr

/-- PIL Image.putalpha as the extractor relies on it: the mask must be a
single-band image, and ImagingPutBand raises ValueError (images do not
match) when the mask dimensions differ from the base image; on success the
mask band becomes the alpha channel of the now RGBA image. -/
def putalpha (im mask : RasterImage) : Except String RasterImage :=
  if mask.mode ≠ "1" ∧ mask.mode ≠ "L" then Except.error "illegal image mode"
  else if mask.width = im.width ∧ mask.height = im.height then
    Except.ok { im with mode := "RGBA", alpha := some mask.pix }
  else Except.error "images do not match"

/-- The storage encoding named by the Filter entry of an image resource. -/
inductive PdfFilterTag where
  | FlateDecode : PdfFilterTag
  | DCTDecode : PdfFilterTag
  | other : PdfFilterTag
  deriving DecidableEq, Repr

/-- One object of the PDF object graph, holding the dictionary entries the
extractor reads. References (smask, xobjects) are object numbers resolved
through a store, so the graph may contain cycles. -/
structure VObj where
  subtype_image : Bool
  filterTag : Option PdfFilterTag
  width : ℕ
  height : ℕ
  data_ok : Bool
  raw : List ℕ
  dct : RasterImage
  smask : Option ℕ
  has_resources : Bool
  has_group : Bool
  xobjects : List ℕ
  deriving Repr

/-- Bands per pixel of the modes the extractor requests from
Image.frombytes (RGB for base images, L for soft masks). -/
def channels (image_format : String) : ℕ :=
  if image_format = "RGB" then 3 else 1

/-- extract_images_from_pdf.image_from_vobj. FlateDecode: getData may fail
(AssertionError, caught, skip) and Image.frombytes succeeds exactly when
the buffer length matches width times height times bands for the requested
mode (otherwise ValueError or TypeError, caught, skip). DCTDecode: the
byte stream is a standalone image decoded by Image.open. Any other filter
falls through to None. -/
def image_from_vobj (vobj : VObj) (image_format : String) : Option RasterImage :=
  match vobj.filterTag with
  | some PdfFilterTag.FlateDecode =>
    if vobj.data_ok then
      if vobj.raw.length = vobj.width * vobj.height * channels image_format then
        some { mode := image_format, width := vobj.width, height := vobj.height
               pix := vobj.raw, alpha := none }
      else none
    else none
  | some PdfFilterTag.DCTDecode => some vobj.dct
  | _ => none

/-- The soft-mask step of extract_images_from_pdf.images_in_page: when the
object names an SMask and that mask decodes (as a single-channel L image),
putalpha is called on the base image with no dimension check; a putalpha
ValueError propagates out of the generator. -/
def apply_smask (store : ℕ → VObj) (vobj : VObj) (img : RasterImage) :
    Except String RasterImage :=
  match (match vobj.smask with
         | none => none
         | some m => image_from_vobj (store m) "L") with
  | none => Except.ok img
  | some mask_img => putalpha img mask_img

/-- Outcome of running the resource walk with a recursion budget:
out_of_fuel models a walk still descending when the budget ends (Python
recursion without a base case), error an uncaught exception, ok the
yielded images in generator order. -/
inductive WalkResult where
  | out_of_fuel : WalkResult
  | error : String → WalkResult
  | ok : List RasterImage → WalkResult
  deriving DecidableEq, Repr

/-- Prepend one yielded image to the images of a walk outcome. -/
def cons_result (img : RasterImage) : WalkResult → WalkResult
  | WalkResult.ok imgs => WalkResult.ok (img :: imgs)
  | w => w

/-- Concatenate two walk outcomes in generator order: a failure of the
first part is the failure of the whole. -/
def append_result : WalkResult → WalkResult → WalkResult
  | WalkResult.ok imgs, WalkResult.ok more => WalkResult.ok (imgs ++ more)
  | WalkResult.ok _, w => w
  | w, _ => w

/-- The loop body of extract_images_from_pdf.images_in_page over the
XObject references of a resource dictionary: reject non-images but recurse
(through the recursion argument) into groups carrying resources, decode
image resources, apply any soft mask, and yield in iteration order. -/
def walk_xobjects (store : ℕ → VObj) (recurse : VObj → WalkResult) : List ℕ → WalkResult
  | [] => WalkResult.ok []
  | r :: rest =>
    let vobj := store r
    if vobj.subtype_image = false ∨ vobj.filterTag = none then
      if vobj.has_resources = true ∧ vobj.has_group = true then
        append_result (recurse vobj) (walk_xobjects store recurse rest)
      else walk_xobjects store recurse rest
    else
      match image_from_vobj vobj "RGB" with
      | none => walk_xobjects store recurse rest
      | some img =>
        match apply_smask store vobj img with
        | Except.error e => WalkResult.error e
        | Except.ok img2 => cons_result img2 (walk_xobjects store recurse rest)

/-- extract_images_from_pdf.images_in_page: walk the XObject entries of
the resources of a page (or of a form object the walk recursed into).
Each level of nesting spends one unit of fuel, matching one Python stack
frame; the code itself has no cycle detection and no depth bound, so
out_of_fuel for every budget models unbounded recursion. -/
def images_in_page (store : ℕ → VObj) : ℕ → VObj → WalkResult
  | 0, _ => WalkResult.out_of_fuel
  | fuel + 1, obj => walk_xobjects store (images_in_page store fuel) obj.xobjects

/-- Python x or y for an optional integer: y when x is None or the falsy
0, x otherwise. -/
def py_or (v : Option ℤ) (d : ℤ) : ℤ :=
  match v with
  | none => d
  | some x => if x = 0 then d else x

/-- The page numbers extract_images_from_pdf iterates:
range(max(0, page or 0), min(to_page or num_pages, num_pages)). -/
def scanned_pages (page to_page : Option ℤ) (num_pages : ℤ) : List ℤ :=
  let lo := max 0 (py_or page 0)
  let hi := min (py_or to_page num_pages) num_pages
  (List.range (hi - lo).toNat).map (fun i : ℕ => lo + (i : ℤ))

/-- A parsed PDF document: its pages by page number, the object store the
indirect references resolve through, and getNumPages. -/
structure PdfDocument where
  pages : ℤ → VObj
  store : ℕ → VObj
  num_pages : ℤ

/-- The images of all scanned pages in page order, before size filtering. -/
def gather_pages (doc : PdfDocument) (fuel : ℕ) (page_numbers : List ℤ) : WalkResult :=
  page_numbers.foldr
    (fun pn acc => append_result (images_in_page doc.store fuel (doc.pages pn)) acc)
    (WalkResult.ok [])

/-- The final filter of extract_images_from_pdf: keep an image when
width >= min_width and height >= min_height and mode[:3] == RGB. -/
def size_mode_filter (img : RasterImage) (min_width min_height : ℕ) : Bool :=
  decide (min_width ≤ img.width) && decide (min_height ≤ img.height)
    && decide (img.mode.take 3 = "RGB")

/-- The images extract_images_from_pdf yields from a list of decoded
images. -/
def yielded (imgs : List RasterImage) (min_width min_height : ℕ) : List RasterImage :=
  imgs.filter (fun img => size_mode_filter img min_width min_height)

/-- extract_images_from_pdf: scan the page range, walk each page, filter
by minimum size and RGB mode. -/
def extract_images_from_pdf (doc : PdfDocument) (page to_page : Option ℤ)
    (min_width min_height : ℕ) (fuel : ℕ) : WalkResult :=
  match gather_pages doc fuel (scanned_pages page to_page doc.num_pages) with
  | WalkResult.ok imgs => WalkResult.ok (yielded imgs min_width min_height)
  | w => w

/-! Concrete inputs used by the theorems below. -/

/-- A placeholder decoded image, the dct field of objects whose filter is
not DCTDecode. -/
def blank_image : RasterImage :=
  { mode := "", width := 0, height := 0, pix := [], alpha := none }

/-- A 2 x 2 RGB FlateDecode image object whose SMask entry references
object 1 (12 bytes of pixel data, 3 bands). -/
def base_image_obj : VObj :=
  { subtype_image := true, filterTag := some PdfFilterTag.FlateDecode, width := 2, height := 2
    data_ok := true, raw := List.replicate 12 3, dct := blank_image, smask := some 1
    has_resources := false, has_group := false, xobjects := [] }

/-- A 1 x 1 grayscale FlateDecode mask object: its dimensions do not match
the 2 x 2 base image above. -/
def small_mask_obj : VObj :=
  { subtype_image := true, filterTag := some PdfFilterTag.FlateDecode, width := 1, height := 1
    data_ok := true, raw := [7], dct := blank_image, smask := none
    has_resources := false, has_group := false, xobjects := [] }

/-- The 1 x 1 mask as image_from_vobj decodes it when forced to mode L. -/
def small_mask_image : RasterImage :=
  { mode := "L", width := 1, height := 1, pix := [7], alpha := none }

/-- A page whose resources hold one XObject, reference 0. -/
def one_image_page : VObj :=
  { subtype_image := false, filterTag := none, width := 0, height := 0
    data_ok := false, raw := [], dct := blank_image, smask := none
    has_resources := true, has_group := false, xobjects := [0] }

/-- Object 0 is the 2 x 2 base image, every other reference the
mismatched 1 x 1 mask. -/
def mismatch_store : ℕ → VObj := fun r => if r = 0 then base_image_obj else small_mask_obj

/-- A form object that is a transparency group with resources whose
XObject list references object 0 again. -/
def self_group_obj : VObj :=
  { subtype_image := false, filterTag := none, width := 0, height := 0
    data_ok := false, raw := [], dct := blank_image, smask := none
    has_resources := true, has_group := true, xobjects := [0] }

/-- Every reference resolves to the self-referencing group: the object
graph has a cycle of length one. -/
def cyclic_store : ℕ → VObj := fun _ => self_group_obj

/-- A store in which every reference is a leaf object with no nested
resources. -/
def leaf_store : ℕ → VObj := fun _ => small_mask_obj

/-- The walk never completes, whatever the recursion budget: the
fuel-indexed model of a Python recursion that never reaches a base
case. -/
def never_completes (store : ℕ → VObj) (obj : VObj) : Prop :=
  ∀ fuel, images_in_page store fuel obj = WalkResult.out_of_fuel

/-- A 2 x 2 RGB image object with no soft mask. -/
def rgb_2x2_obj : VObj := { base_image_obj with smask := none }

/-- A 1 x 2 RGB image object with no soft mask (below a width threshold
of 2). -/
def rgb_1x2_obj : VObj :=
  { base_image_obj with width := 1, raw := List.replicate 6 1, smask := none }

/-- A page whose resources hold the two image XObjects 0 and 1. -/
def two_image_page : VObj := { one_image_page with xobjects := [0, 1] }

/-- A one-page document holding a 2 x 2 and a 1 x 2 RGB image. -/
def filter_doc : PdfDocument :=
  { pages := fun _ => two_image_page
    store := fun r => if r = 0 then rgb_2x2_obj else rgb_1x2_obj
    num_pages := 1 }

/-- The decoded 2 x 2 RGB image of filter_doc. -/
def image_2x2 : RasterImage :=
  { mode := "RGB", width := 2, height := 2, pix := List.replicate 12 3, alpha := none }

/-- The decoded 1 x 2 RGB image of filter_doc. -/
def image_1x2 : RasterImage :=
  { mode := "RGB", width := 1, height := 2, pix := List.replicate 6 1, alpha := none }

/-- The plan split_image makes for a 400 x 100 pixel image at one pixel
per mm (squares 2000/127 by 500/127, so squares_wide times 25.4 is
exactly 400), A4, 5 mm borders, default 10 mm overlaps. -/
def gap_plan : SplitPlan := split_image 400 100 (2000/127) (500/127) 5 5 5 5 10 10 A4

/-- The plan of end-to-end scenario A: 2032 x 1016 pixels, 8 x 4 squares,
A4, 5 mm borders, default 10 mm overlaps. -/
def scenario_a_plan : SplitPlan := split_image 2032 1016 8 4 5 5 5 5 10 10 A4

/-! Helper lemmas. -/

/-- Membership in the scanned page range is the half-open interval from
max(0, page or 0) up to but excluding min(to_page or num_pages,
num_pages). -/
lemma mem_scanned_pages (page to_page : Option ℤ) (n k : ℤ) :
    k ∈ scanned_pages page to_page n ↔
      max 0 (py_or page 0) ≤ k ∧ k < min (py_or to_page n) n := by
  unfold scanned_pages
  rw [List.mem_map]
  constructor
  · rintro ⟨i, hi, rfl⟩
    rw [List.mem_range] at hi
    omega
  · rintro ⟨h1, h2⟩
    refine ⟨(k - max 0 (py_or page 0)).toNat, ?_, ?_⟩
    · rw [List.mem_range]
      omega
    · omega

/-- Concatenating two completed walks yields a completed walk. -/
lemma append_result_ne (a b : WalkResult) (ha : a ≠ WalkResult.out_of_fuel)
    (hb : b ≠ WalkResult.out_of_fuel) :
    append_result a b ≠ WalkResult.out_of_fuel := by
  cases a <;> cases b <;> simp_all [append_result]

/-- Prepending an image to a completed walk yields a completed walk. -/
lemma cons_result_ne (img : RasterImage) (a : WalkResult)
    (ha : a ≠ WalkResult.out_of_fuel) :
    cons_result img a ≠ WalkResult.out_of_fuel := by
  cases a <;> simp_all [cons_result]

/-- Evaluation of the plan for the 400 x 100 image: portrait, 2 x 1 pages,
stride 190 pixels against a 10 pixel overlap. -/
lemma gap_plan_eval : gap_plan =
    { pixels_per_mm := 1, orientation := Orientation.P, pages_horizontal := 2, pages_vertical := 1,
      pixel_width_page := 190, pixel_height_page := 287, overlap_east_pixels := 10,
      overlap_south_pixels := 10, width_pixels := 400, height_pixels := 100,
      border := { north := 5, east := 15, south := 15, west := 5 }, paper := A4 } := by
  have hppm : min ((400:ℚ) / (2000 / 127 * 25.4)) ((100:ℚ) / (500 / 127 * 25.4)) = 1 := by
    norm_num
  have hc1 : ⌈(400:ℚ) / 200⌉ = (2:ℤ) := by rw [Int.ceil_eq_iff]; norm_num
  have hc2 : ⌈(40:ℚ) / 21⌉ = (2:ℤ) := by rw [Int.ceil_eq_iff]; norm_num
  have hc3 : ⌈(100:ℚ) / 287⌉ = (1:ℤ) := by rw [Int.ceil_eq_iff]; norm_num
  have hc4 : ⌈(400:ℚ) / 287⌉ = (2:ℤ) := by rw [Int.ceil_eq_iff]; norm_num
  have hc5 : ⌈(400:ℚ) / 297⌉ = (2:ℤ) := by rw [Int.ceil_eq_iff]; norm_num
  have hc6 : ⌈(1:ℚ) / 2⌉ = (1:ℤ) := by rw [Int.ceil_eq_iff]; norm_num
  have hc7 : ⌈(10:ℚ) / 21⌉ = (1:ℤ) := by rw [Int.ceil_eq_iff]; norm_num
  simp only [gap_plan, split_image, get_page_size, pages, zero_if_one, A4]
  rw [hppm]
  norm_num [hc1, hc2, hc3, hc4, hc5, hc6, hc7]

/-- Evaluation of the scenario A plan: portrait, one page, whole image on
the single tile. -/
lemma scenario_a_eval : scenario_a_plan =
    { pixels_per_mm := 10, orientation := Orientation.P, pages_horizontal := 1, pages_vertical := 1,
      pixel_width_page := 2000, pixel_height_page := 2870, overlap_east_pixels := 100,
      overlap_south_pixels := 100, width_pixels := 2032, height_pixels := 1016,
      border := { north := 5, east := 15, south := 15, west := 5 }, paper := A4 } := by
  have hppm : min ((2032:ℚ) / (8 * 25.4)) ((1016:ℚ) / (4 * 25.4)) = 10 := by norm_num
  have hd1 : ⌈(127:ℚ) / 250⌉ = (1:ℤ) := by rw [Int.ceil_eq_iff]; norm_num
  have hd2 : ⌈(1016:ℚ) / 1435⌉ = (1:ℤ) := by rw [Int.ceil_eq_iff]; norm_num
  have hd3 : ⌈(1016:ℚ) / 1485⌉ = (1:ℤ) := by rw [Int.ceil_eq_iff]; norm_num
  have hd4 : ⌈(254:ℚ) / 525⌉ = (1:ℤ) := by rw [Int.ceil_eq_iff]; norm_num
  have hd5 : ⌈(508:ℚ) / 1435⌉ = (1:ℤ) := by rw [Int.ceil_eq_iff]; norm_num
  have hd6 : ⌈(127:ℚ) / 125⌉ = (2:ℤ) := by rw [Int.ceil_eq_iff]; norm_num
  have hd7 : ⌈(508:ℚ) / 525⌉ = (1:ℤ) := by rw [Int.ceil_eq_iff]; norm_num
  have hd8 : ⌈(508:ℚ) / 1485⌉ = (1:ℤ) := by rw [Int.ceil_eq_iff]; norm_num
  simp only [scenario_a_plan, split_image, get_page_size, pages, zero_if_one, A4]
  rw [hppm]
  norm_num [hd1, hd2, hd3, hd4, hd5, hd6, hd7, hd8]

/-! The claims. -/

/-- Claim C1: the claim states that the union of all tile crop rectangles
covers the whole image. The code violates it: for a 400 x 100 pixel image
at one pixel per mm on A4 with 5 mm borders and 10 mm overlaps,
split_image plans 2 x 1 pages whose crop rectangles reach only to pixel
column 390, so the pixel at (395, 50) lies in the image but in no tile:
the page count divides by printable plus overlap while the tile stride is
printable minus overlap. -/
theorem C1_coverage_gap :
    gap_plan.pages_horizontal = 2 ∧ gap_plan.pages_vertical = 1 ∧
    gap_plan.width_pixels = 400 ∧ gap_plan.height_pixels = 100 ∧
    crop_for gap_plan 0 0 = { left := 0, upper := 0, right := 200, lower := 100 } ∧
    crop_for gap_plan 1 0 = { left := 190, upper := 0, right := 390, lower := 100 } ∧
    ¬ covered gap_plan 395 50 := by
  rw [gap_plan_eval]
  refine ⟨rfl, rfl, rfl, rfl, ?_, ?_, ?_⟩
  · norm_num [crop_for, min_def]
  · norm_num [crop_for, min_def]
  · intro h
    unfold covered at h
    obtain ⟨x, hx, y, hy, hbox⟩ := h
    simp only [Finset.mem_range] at hx hy
    rw [show ((2:ℤ).toNat) = 2 from rfl] at hx
    rw [show ((1:ℤ).toNat) = 1 from rfl] at hy
    interval_cases x <;> interval_cases y <;>
      norm_num [in_box, crop_for, min_def] at hbox

/-- Claim C2 counterexample: one pixel worth (0.1 mm at 10 pixels per mm)
over a printable size of 200 mm with the default 10 mm overlap yields 1
page, not the 2 pages the claim asserts for every overlap. -/
theorem C2_one_pixel_over_still_one_page : pages (200 + 1/10) 200 10 = 1 := by
  have h1 : ⌈(2001:ℚ) / 2000⌉ = (2:ℤ) := by rw [Int.ceil_eq_iff]; norm_num
  have h2 : ⌈(667:ℚ) / 700⌉ = (1:ℤ) := by rw [Int.ceil_eq_iff]; norm_num
  norm_num [pages, h1, h2]

/-- Claim C2 (amended): an axis exactly equal to the printable size yields
1 page; an axis exceeding it by a positive epsilon (at most the printable
size itself) yields 2 pages exactly when epsilon exceeds the overlap, and
still 1 page when the overlap absorbs the excess. -/
theorem C2_pages_boundary (printable overlap eps : ℚ)
    (hp : 0 < printable) (ho : 0 ≤ overlap) (he : 0 < eps) (hep : eps ≤ printable) :
    pages printable printable overlap = 1 ∧
    (eps ≤ overlap → pages (printable + eps) printable overlap = 1) ∧
    (overlap < eps → pages (printable + eps) printable overlap = 2) := by
  have hpo : 0 < printable + overlap := by linarith
  have hone : ⌈printable / printable⌉ = (1:ℤ) := by
    rw [div_self hp.ne']
    exact Int.ceil_one
  have hgt : ⌈(printable + eps) / printable⌉ ≠ 1 := by
    have h1 : ((1:ℤ):ℚ) < (printable + eps) / printable := by
      rw [lt_div_iff₀ hp]
      push_cast
      linarith
    have h2 := Int.lt_ceil.mpr h1
    omega
  refine ⟨?_, ?_, ?_⟩
  · unfold pages
    rw [hone]
    simp
  · intro hle
    unfold pages
    rw [if_neg hgt, Int.ceil_eq_iff]
    have hr : (0:ℚ) < (printable + eps) / (printable + overlap) := div_pos (by linarith) hpo
    have hr1 : (printable + eps) / (printable + overlap) ≤ 1 := by
      rw [div_le_one hpo]
      linarith
    constructor
    · push_cast
      linarith
    · push_cast
      linarith
  · intro hlt
    unfold pages
    rw [if_neg hgt, Int.ceil_eq_iff]
    have hr1 : (1:ℚ) < (printable + eps) / (printable + overlap) := by
      rw [lt_div_iff₀ hpo]
      linarith
    have hr2 : (printable + eps) / (printable + overlap) ≤ 2 := by
      rw [div_le_iff₀ hpo]
      linarith
    constructor
    · push_cast
      linarith
    · push_cast
      linarith

/-- Claim C2 witness at printable 200, overlap 0, epsilon one tenth. -/
theorem C2_pages_boundary_witness :
    pages 200 200 0 = 1 ∧
    ((1:ℚ)/10 ≤ 0 → pages (200 + 1/10) 200 0 = 1) ∧
    ((0:ℚ) < 1/10 → pages (200 + 1/10) 200 0 = 2) :=
  C2_pages_boundary 200 0 (1/10) (by norm_num) (by norm_num) (by norm_num) (by norm_num)

/-- Claim C3: get_page_size chooses Landscape exactly when the Landscape
page total is strictly below the Portrait total, so equal totals give
Portrait. -/
theorem C3_orientation_tie_break (width_mm height_mm : ℚ) (paper : PaperSize)
    (bn be bs bw oe os : ℚ) :
    ((get_page_size width_mm height_mm paper bn be bs bw oe os).orientation = Orientation.L ↔
      pages width_mm (paper.height - (bn + bs)) os * pages height_mm (paper.width - (be + bw)) oe <
        pages width_mm (paper.width - (be + bw)) oe *
          pages height_mm (paper.height - (bn + bs)) os) ∧
    (pages width_mm (paper.height - (bn + bs)) os * pages height_mm (paper.width - (be + bw)) oe =
        pages width_mm (paper.width - (be + bw)) oe *
          pages height_mm (paper.height - (bn + bs)) os →
      (get_page_size width_mm height_mm paper bn be bs bw oe os).orientation = Orientation.P) := by
  by_cases h : pages width_mm (paper.width - (be + bw)) oe *
        pages height_mm (paper.height - (bn + bs)) os >
      pages width_mm (paper.height - (bn + bs)) os * pages height_mm (paper.width - (be + bw)) oe
  · constructor
    · simp [get_page_size, h]
    · intro heq
      omega
  · constructor
    · simp [get_page_size, h]
    · intro _
      simp [get_page_size, h]

/-- Claim C4: split_image and process_image_with_border both derive the
scale as the minimum of the two axis ratios, deterministically. -/
theorem C4_scale_determinism (w h sw sh bn be bw bs oe os : ℚ) (paper : PaperSize) :
    (split_image w h sw sh bn be bw bs oe os paper).pixels_per_mm
        = min (w / (sw * 25.4)) (h / (sh * 25.4)) ∧
    (process_image_with_border w h sw sh bn be bw bs).image_width
        = w / min (w / (sw * 25.4)) (h / (sh * 25.4)) ∧
    (process_image_with_border w h sw sh bn be bw bs).image_height
        = h / min (w / (sw * 25.4)) (h / (sh * 25.4)) :=
  ⟨rfl, rfl, rfl⟩

/-- Claim C5 counterexample: a page holding a 2 x 2 RGB image with a
1 x 1 soft mask. The claim says the mask is discarded and the image
emitted opaque; the code instead calls putalpha with no dimension check,
and the resulting ValueError aborts the walk: no image is emitted at
all. -/
theorem C5_mismatch_aborts :
    images_in_page mismatch_store 2 one_image_page =
      WalkResult.error "images do not match" := by decide

/-- Claim C5 (amended): when the object names a soft mask that decodes as
a single-channel L image, the mask is applied with no dimension check:
matching dimensions give the mask as alpha channel, mismatched dimensions
give the PIL ValueError (images do not match), which propagates and
aborts extraction instead of emitting the base image opaque. -/
theorem C5_mask_no_size_check (store : ℕ → VObj) (vobj : VObj) (img mask_img : RasterImage)
    (m : ℕ) (href : vobj.smask = some m)
    (hdec : image_from_vobj (store m) "L" = some mask_img)
    (hmode : mask_img.mode = "L") :
    (mask_img.width = img.width ∧ mask_img.height = img.height →
      apply_smask store vobj img =
        Except.ok { img with mode := "RGBA", alpha := some mask_img.pix }) ∧
    (¬(mask_img.width = img.width ∧ mask_img.height = img.height) →
      apply_smask store vobj img = Except.error "images do not match") := by
  have hmask : apply_smask store vobj img = putalpha img mask_img := by
    unfold apply_smask
    rw [href]
    dsimp only
    rw [hdec]
  rw [hmask]
  unfold putalpha
  rw [hmode]
  rw [if_neg (by simp : ¬(("L":String) ≠ "1" ∧ ("L":String) ≠ "L"))]
  constructor
  · intro hmatch
    rw [if_pos hmatch]
  · intro hmiss
    rw [if_neg hmiss]

/-- Claim C5 witness: the 2 x 2 base with the 1 x 1 mask of
mismatch_store. -/
theorem C5_mask_no_size_check_witness :
    (small_mask_image.width = image_2x2.width ∧ small_mask_image.height = image_2x2.height →
      apply_smask mismatch_store base_image_obj image_2x2 =
        Except.ok { image_2x2 with mode := "RGBA", alpha := some small_mask_image.pix }) ∧
    (¬(small_mask_image.width = image_2x2.width ∧
        small_mask_image.height = image_2x2.height) →
      apply_smask mismatch_store base_image_obj image_2x2 =
        Except.error "images do not match") :=
  C5_mask_no_size_check mismatch_store base_image_obj image_2x2 small_mask_image 1
    rfl rfl rfl

/-- Claim C6 counterexample: a two page document scanned with page 0 and
to_page 1 visits only page 0; page number to_page itself is excluded,
against the claimed inclusive range. -/
theorem C6_to_page_excluded :
    scanned_pages (some 0) (some 1) 2 = [0] ∧
    (1:ℤ) ∉ scanned_pages (some 0) (some 1) 2 := by decide

/-- Claim C6 (amended): the scanned range is half open, from
max(0, page or 0) up to but excluding min(to_page or num_pages,
num_pages); with to_page absent the last page num_pages - 1 is included,
and any explicitly supplied nonzero to_page is itself never scanned. -/
theorem C6_half_open_range (page to_page : Option ℤ) (n k m : ℤ) :
    (k ∈ scanned_pages page to_page n ↔
      max 0 (py_or page 0) ≤ k ∧ k < min (py_or to_page n) n) ∧
    (0 < n →
      ((n - 1 ∈ scanned_pages page none n) ↔ max 0 (py_or page 0) ≤ n - 1)) ∧
    (m ≠ 0 → m ∉ scanned_pages page (some m) n) := by
  refine ⟨mem_scanned_pages page to_page n k, ?_, ?_⟩
  · intro hn
    rw [mem_scanned_pages]
    simp only [py_or]
    omega
  · intro hm
    rw [mem_scanned_pages]
    simp only [py_or, if_neg hm]
    omega

/-- Claim C7: extract_images_from_pdf yields exactly the walked images
whose width and height reach the minima and whose mode starts with RGB;
equality at the thresholds is included. -/
theorem C7_min_size_filter (doc : PdfDocument) (page to_page : Option ℤ)
    (mw mh fuel : ℕ) (imgs : List RasterImage) (img : RasterImage)
    (hgather : gather_pages doc fuel (scanned_pages page to_page doc.num_pages) =
      WalkResult.ok imgs) :
    extract_images_from_pdf doc page to_page mw mh fuel =
      WalkResult.ok (yielded imgs mw mh) ∧
    (img ∈ yielded imgs mw mh ↔
      img ∈ imgs ∧ mw ≤ img.width ∧ mh ≤ img.height ∧ img.mode.take 3 = "RGB") := by
  constructor
  · unfold extract_images_from_pdf
    rw [hgather]
  · simp [yielded, size_mode_filter, List.mem_filter, Bool.and_eq_true,
      decide_eq_true_eq, and_assoc]

/-- Claim C7 witness: a document with a 2 x 2 and a 1 x 2 RGB image,
thresholds 2 x 2: the image exactly at the thresholds passes the
filter. -/
theorem C7_min_size_filter_witness :
    extract_images_from_pdf filter_doc none none 2 2 5 =
      WalkResult.ok (yielded [image_2x2, image_1x2] 2 2) ∧
    (image_2x2 ∈ yielded [image_2x2, image_1x2] 2 2 ↔
      image_2x2 ∈ [image_2x2, image_1x2] ∧ 2 ≤ image_2x2.width ∧
        2 ≤ image_2x2.height ∧ image_2x2.mode.take 3 = "RGB") :=
  C7_min_size_filter filter_doc none none 2 2 5 [image_2x2, image_1x2] image_2x2
    (by decide)

/-- Claim C8 counterexample: scenario A holds up to the last conjunct
(scale 10, Portrait, one page, the single tile covering the image
exactly), but the page is not free of tick marks: make_pdf always draws
the four solid corner tick pairs, so the tick list is nonempty. -/
theorem C8_corner_ticks_drawn :
    scenario_a_plan.pixels_per_mm = 10 ∧
    scenario_a_plan.orientation = Orientation.P ∧
    scenario_a_plan.pages_horizontal = 1 ∧
    scenario_a_plan.pages_vertical = 1 ∧
    crop_for scenario_a_plan 0 0 = { left := 0, upper := 0, right := 2032, lower := 1016 } ∧
    page_ticks scenario_a_plan 0 0 ≠ [] := by
  rw [scenario_a_eval]
  refine ⟨rfl, rfl, rfl, rfl, ?_, ?_⟩
  · norm_num [crop_for, min_def]
  · norm_num [page_ticks, tick, crop_for, min_def, A4]
    exact List.cons_ne_nil _ _

/-- Claim C8 (amended): scenario A yields scale 10, Portrait, a 1 x 1
plan whose single tile covers the whole image, and a page with no dashed
interior tick marks; the eight solid corner tick segments are still
drawn. -/
theorem C8_scenario_a :
    scenario_a_plan.pixels_per_mm = 10 ∧
    scenario_a_plan.orientation = Orientation.P ∧
    scenario_a_plan.pages_horizontal = 1 ∧
    scenario_a_plan.pages_vertical = 1 ∧
    crop_for scenario_a_plan 0 0 = { left := 0, upper := 0, right := 2032, lower := 1016 } ∧
    (page_ticks scenario_a_plan 0 0).filter (fun s => s.dashed) = [] ∧
    (page_ticks scenario_a_plan 0 0).length = 8 := by
  rw [scenario_a_eval]
  refine ⟨rfl, rfl, rfl, rfl, ?_, ?_, ?_⟩
  · norm_num [crop_for, min_def]
  · norm_num [page_ticks, tick, crop_for, min_def, A4]
  · norm_num [page_ticks, tick, crop_for, min_def, A4]

/-- Claim C9 counterexample: on a document whose transparency group
references itself, images_in_page exhausts every recursion budget; the
cycle is never detected and no malformed-document error is raised. -/
theorem C9_cycle_not_detected : never_completes cyclic_store self_group_obj := by
  intro fuel
  induction fuel with
  | zero => rfl
  | succ n ih =>
    rw [show images_in_page cyclic_store (n + 1) self_group_obj
        = append_result (images_in_page cyclic_store n self_group_obj)
            (WalkResult.ok []) from rfl, ih]
    rfl

/-- Claim C9 (amended): the walk terminates exactly on documents whose
group nesting is well founded: given any rank function that strictly
decreases from an object to the objects its resources reference, a
recursion budget above the rank of the entry object completes the walk;
a cyclic document admits no such rank and the code loops until the
interpreter recursion limit. -/
theorem C9_acyclic_walk_completes (store : ℕ → VObj) (rank : VObj → ℕ) (obj : VObj)
    (fuel : ℕ)
    (hrank : ∀ o r, r ∈ o.xobjects → rank (store r) < rank o)
    (hfuel : rank obj < fuel) :
    images_in_page store fuel obj ≠ WalkResult.out_of_fuel := by
  induction fuel generalizing obj with
  | zero => omega
  | succ n ih =>
    show walk_xobjects store (images_in_page store n) obj.xobjects ≠
      WalkResult.out_of_fuel
    have walk_ne : ∀ refs : List ℕ, (∀ r ∈ refs, rank (store r) < rank obj) →
        walk_xobjects store (images_in_page store n) refs ≠ WalkResult.out_of_fuel := by
      intro refs
      induction refs with
      | nil =>
        intro _
        simp [walk_xobjects]
      | cons r rest ihl =>
        intro hall
        have hrest : ∀ s ∈ rest, rank (store s) < rank obj :=
          fun s hs => hall s (List.mem_cons_of_mem r hs)
        have hrn : rank (store r) < rank obj := hall r (List.mem_cons_self r rest)
        simp only [walk_xobjects]
        by_cases h1 : (store r).subtype_image = false ∨ (store r).filterTag = none
        · rw [if_pos h1]
          by_cases h2 : (store r).has_resources = true ∧ (store r).has_group = true
          · rw [if_pos h2]
            exact append_result_ne _ _ (ih (store r) (by omega)) (ihl hrest)
          · rw [if_neg h2]
            exact ihl hrest
        · rw [if_neg h1]
          cases himg : image_from_vobj (store r) "RGB" with
          | none => exact ihl hrest
          | some img =>
            dsimp only
            cases hmask : apply_smask store (store r) img with
            | error e =>
              dsimp only
              simp
            | ok img2 =>
              dsimp only
              exact cons_result_ne _ _ (ihl hrest)
    exact walk_ne obj.xobjects (fun r hr => hrank obj r hr)

/-- Claim C9 witness: a flat document (every reference a leaf) with the
xobject list length as rank completes within budget 2. -/
theorem C9_acyclic_walk_completes_witness :
    images_in_page leaf_store 2 one_image_page ≠ WalkResult.out_of_fuel :=
  C9_acyclic_walk_completes leaf_store (fun o => o.xobjects.length) one_image_page 2
    (fun o r hr => by
      simpa [leaf_store, small_mask_obj] using
        List.length_pos.mpr (List.ne_nil_of_mem hr))
    (by decide)

/-- Claim C10: a falsy page bound triggers the default: to_page 0 scans
the same pages as to_page None, page None the same as page 0, and with
to_page 0 the scan still reaches the last page of the document instead of
scanning nothing. -/
theorem C10_falsy_page_defaults (page to_page : Option ℤ) (n : ℤ) :
    scanned_pages page (some 0) n = scanned_pages page none n ∧
    scanned_pages none to_page n = scanned_pages (some 0) to_page n ∧
    (0 < n → n - 1 ∈ scanned_pages none (some 0) n) := by
  refine ⟨rfl, rfl, ?_⟩
  intro hn
  rw [mem_scanned_pages]
  simp [py_or]
  omega

end Mapmaker
